import Mathlib

/-!
# Verification of the pony migration tool against its specification

Shallow embedding of `pony/migrate/serializer.py` and `pony/migrate/command.py`.

Python strings are modelled as Lean `String`; Python string comparison is
lexicographic by code point, modelled by an explicit comparison on the
character lists (`strLe`).  Python `set` objects collecting import
statements are modelled as `Finset String`.  Python exceptions are modelled
with `Except`: the serializer raises only `ValueError` (so a plain message
string suffices, the bare `raise ValueError` at the end of
`serializer_factory` carrying the empty message), while the command layer
distinguishes exception classes (`PyExn`).
-/

/-- Lexicographic comparison of character lists by code point; this is how
Python compares strings (`a <= b`). -/
def strLe : List Char → List Char → Bool
  | [], _ => true
  | _ :: _, [] => false
  | a :: as, b :: bs =>
    if a.toNat < b.toNat then true
    else if b.toNat < a.toNat then false
    else strLe as bs

theorem strLe_total : ∀ as bs : List Char, strLe as bs = true ∨ strLe bs as = true := by
  intro as
  induction as with
  | nil => intro bs; left; rfl
  | cons a as ih =>
    intro bs
    cases bs with
    | nil => right; rfl
    | cons b bs =>
      by_cases h1 : a.toNat < b.toNat
      · left; simp [strLe, h1]
      · by_cases h2 : b.toNat < a.toNat
        · right; simp [strLe, h1, h2]
        · rcases ih bs with h | h
          · left; simp [strLe, h1, h2, h]
          · right; simp [strLe, h1, h2, h]

theorem strLe_trans :
    ∀ as bs cs : List Char, strLe as bs = true → strLe bs cs = true → strLe as cs = true := by
  intro as
  induction as with
  | nil => intro bs cs _ _; rfl
  | cons a as ih =>
    intro bs cs hab hbc
    cases bs with
    | nil => simp [strLe] at hab
    | cons b bs =>
      cases cs with
      | nil => simp [strLe] at hbc
      | cons c cs =>
        simp only [strLe] at hab hbc ⊢
        by_cases hab1 : a.toNat < b.toNat
        · by_cases hbc1 : b.toNat < c.toNat
          · simp [show a.toNat < c.toNat by omega]
          · by_cases hbc2 : c.toNat < b.toNat
            · simp [hbc1, hbc2] at hbc
            · simp [show a.toNat < c.toNat by omega]
        · by_cases hab2 : b.toNat < a.toNat
          · simp [hab1, hab2] at hab
          · by_cases hbc1 : b.toNat < c.toNat
            · simp [show a.toNat < c.toNat by omega]
            · by_cases hbc2 : c.toNat < b.toNat
              · simp [hbc1, hbc2] at hbc
              · simp [hab1, hab2] at hab
                simp [hbc1, hbc2] at hbc
                have hac1 : ¬ a.toNat < c.toNat := by omega
                have hac2 : ¬ c.toNat < a.toNat := by omega
                simp [hac1, hac2]
                exact ih bs cs hab hbc

theorem strLe_antisymm :
    ∀ as bs : List Char, strLe as bs = true → strLe bs as = true → as = bs := by
  intro as
  induction as with
  | nil =>
    intro bs _ hba
    cases bs with
    | nil => rfl
    | cons b bs => simp [strLe] at hba
  | cons a as ih =>
    intro bs hab hba
    cases bs with
    | nil => simp [strLe] at hab
    | cons b bs =>
      simp only [strLe] at hab hba
      by_cases h1 : a.toNat < b.toNat
      · have : ¬ b.toNat < a.toNat := by omega
        simp [h1, this] at hba
      · by_cases h2 : b.toNat < a.toNat
        · simp [h1, h2] at hab
        · have h1' : ¬ a.val.toNat < b.val.toNat := h1
          have h2' : ¬ b.val.toNat < a.val.toNat := h2
          have hc : a = b := Char.ext (UInt32.ext (by omega))
          simp [h1, h2] at hab hba
          rw [hc, ih bs hab hba]

/-- Key-ordering relation on rendered pairs: compare the first component
(the dictionary key / keyword name) the way Python compares strings. -/
def keyLe (x y : String × String) : Prop := strLe x.1.data y.1.data = true

instance : DecidableRel keyLe := fun x y =>
  inferInstanceAs (Decidable (strLe x.1.data y.1.data = true))

instance : IsTotal (String × String) keyLe :=
  ⟨fun x y => strLe_total x.1.data y.1.data⟩

instance : IsTrans (String × String) keyLe :=
  ⟨fun _ _ _ h1 h2 => strLe_trans _ _ _ h1 h2⟩

/-- Strict variant of `keyLe`, used only to show that sorting a
duplicate-free association list is canonical. -/
def keyLt (x y : String × String) : Prop := keyLe x y ∧ x.1 ≠ y.1

instance : IsAntisymm (String × String) keyLt :=
  ⟨fun x y hxy hyx => by
    have hdata : x.1.data = y.1.data := strLe_antisymm _ _ hxy.1 hyx.1
    exact absurd (String.ext hdata) hxy.2⟩

/-- `sorted(...)` over an association list whose keys are Python strings.
Python uses a stable mergesort over the `(key, value)` items; on the inputs
this program sorts (dictionary items and keyword-argument items, whose keys
are unique), every sort by key produces the same list, which we realise by
insertion sort. -/
def sortByKey (l : List (String × String)) : List (String × String) :=
  l.insertionSort keyLe

theorem sortByKey_sorted (l : List (String × String)) :
    List.Sorted keyLe (sortByKey l) :=
  List.sorted_insertionSort keyLe l

theorem sortByKey_perm (l : List (String × String)) :
    (sortByKey l).Perm l :=
  List.perm_insertionSort keyLe l

theorem sortByKey_eq_of_perm {l₁ l₂ : List (String × String)}
    (h : l₁.Perm l₂) (hn : (l₁.map Prod.fst).Nodup) :
    sortByKey l₁ = sortByKey l₂ := by
  have hp : (sortByKey l₁).Perm (sortByKey l₂) :=
    ((sortByKey_perm l₁).trans h).trans (sortByKey_perm l₂).symm
  have hne1 : List.Pairwise (fun a b : String × String => a.1 ≠ b.1) (sortByKey l₁) := by
    have : ((sortByKey l₁).map Prod.fst).Nodup :=
      (((sortByKey_perm l₁).map Prod.fst).nodup_iff).2 hn
    exact (List.pairwise_map).1 this
  have hne2 : List.Pairwise (fun a b : String × String => a.1 ≠ b.1) (sortByKey l₂) := by
    have hn2 : (l₂.map Prod.fst).Nodup := ((h.map Prod.fst).nodup_iff).1 hn
    have : ((sortByKey l₂).map Prod.fst).Nodup :=
      (((sortByKey_perm l₂).map Prod.fst).nodup_iff).2 hn2
    exact (List.pairwise_map).1 this
  have hs1 : List.Sorted keyLt (sortByKey l₁) :=
    ((sortByKey_sorted l₁).and hne1).imp fun hab => ⟨hab.1, hab.2⟩
  have hs2 : List.Sorted keyLt (sortByKey l₂) :=
    ((sortByKey_sorted l₂).and hne2).imp fun hab => ⟨hab.1, hab.2⟩
  exact List.eq_of_perm_of_sorted hp hs1 hs2

/-!
## Embedding of `pony/migrate/serializer.py`

The dispatcher `serializer_factory` picks a serializer class by a chain of
`isinstance`/`hasattr` tests and the caller invokes its `serialize()`
method; `serialize` below fuses the two.  Each Python value is modelled by
the `PValue` constructor matching the first dispatch test it satisfies;
the one overlap the dispatch order must resolve — a class object (matched
by `isinstance(value, type)` at rule position 3) that also exposes a
`deconstruct` method (tested only afterwards, line 363) — is modelled by
the `hasDeconstruct` flag on `vType`, which the code never consults.

Value categories not exercised by any claim (datetime, enum, float,
bytes, Decimal, functools.partial, compiled regex) are omitted from the
`PValue` type; the dispatch structure of the modelled categories is
unchanged by their absence.
-/

/-- Modelled from the spec: the version shim `pony.py23compat` (not under
src/) reports which runtime major version is active; we model the modern
runtime, so `PY2` is false. -/
def PY2 : Bool := false

/-- Python `repr` of a string: quoted with the apostrophe character
(written `\x27`), escaping backslashes, apostrophes and newlines.  (CPython
switches to double quotes when the text itself holds an apostrophe but no
double quote; no claim depends on that cosmetic choice.) -/
def pyCharEsc (c : Char) : String :=
  if c = '\\' then "\\\\"
  else if c = '\x27' then "\\\x27"
  else if c = '\n' then "\\n"
  else String.mk [c]

def pyStrRepr (s : String) : String :=
  "\x27" ++ String.join (s.data.map pyCharEsc) ++ "\x27"

/-- Serialization context (`ctx`): a mapping of flags passed down the call
tree.  Only `has_db_var` is ever read (by `EntitySerializer`); the
`is_dynamic` flag set before dispatching to `FunctionTypeSerializer` is
never consulted in the sources, so it is not modelled. -/
structure Ctx where
  has_db_var : Bool := false

/-- The context `serializer_factory` builds when it is called without one
(`ctx is None` ⇒ `ctx = \x7b\x7d`); child values of sequences and
dictionaries are serialized with it because `BaseSequenceSerializer` and
`DictionarySerializer` call `serializer_factory(item)` without passing
their own context on. -/
def emptyCtx : Ctx := {}

/-- A Python function value, as `FunctionTypeSerializer` observes it:
its `__name__`, `__qualname__`, `__module__` (None for some builtins),
`__self__` when the callable is bound to a class (module and class name),
and whether `hasattr(import_module(module), name)` holds (`reachable`). -/
structure FuncVal where
  name : String
  qualname : String
  module : Option String
  selfClass : Option (String × String)
  lambdaBody : String
  reachable : Bool

/-- Modelled from the spec: `decompile`/`ast2src` (pony.orm.decompiling and
pony.orm.asttranslation, code of this repository not under src/) recover an
inline lambda body as source text; we model the recovered expression as
data carried by the function value. -/
def decompiledBody (f : FuncVal) : String := f.lambdaBody

/-- The note appended to the unserializable-function error message
(`FunctionTypeSerializer.serialize`, lines 185-192). -/
def unboundMethodNote : String :=
  "Please note that due to Python 2 limitations, you cannot serialize unbound method functions (e.g. a method declared and used in the same class body). Please move the function into the main module body to use migrations."

/-- `FunctionTypeSerializer.serialize` (serializer.py lines 161-196).
The `%r` of the function object in the no-module message is modelled by
the function name. -/
def serializeFunction (f : FuncVal) : Except String (String × Finset String) :=
  match f.selfClass with
  | some km => .ok (km.1 ++ "." ++ km.2 ++ "." ++ f.name, {"import " ++ km.1})
  | none =>
    if f.name = "<lambda>" then
      .ok ("lambda: " ++ decompiledBody f, ∅)
    else
      match f.module with
      | none => .error ("Cannot serialize function " ++ f.name ++ ": No module")
      | some m =>
        if f.qualname ≠ "" ∧ m ≠ "" ∧ f.qualname.data.contains '<' = false then
          .ok (m ++ "." ++ f.qualname, {"import " ++ m})
        else if f.reachable = false then
          .error ("Could not find function " ++ f.name ++ " in " ++ m ++ ".\n" ++
            unboundMethodNote)
        else if m = "__builtin__" then
          .ok (f.name, ∅)
        else
          .ok (m ++ "." ++ f.name, {"import " ++ m})

/-- Dot-splitting of a character list, accumulating the current component
in reverse. -/
def splitDot : List Char → List Char → List String
  | [], acc => [String.mk acc.reverse]
  | c :: cs, acc =>
    if c = '.' then String.mk acc.reverse :: splitDot cs []
    else splitDot cs (c :: acc)

/-- `path.rsplit(".", 1)`: module part and final component.  (On a dotless
path the Python unpacking would raise; every deconstruction path this tool
produces is dotted.) -/
def rsplitDot (path : String) : String × String :=
  let parts := splitDot path.data []
  (String.intercalate "." parts.dropLast, parts.getLastD "")

/-- `DeconstructableSerializer._serialize_path` (serializer.py lines
106-117): special-case the two known module paths, else keep the full
dotted path and import its module. -/
def serialize_path (path : String) : String × Finset String :=
  let mn := rsplitDot path
  if mn.1 = "pony.orm.core" then
    ("orm." ++ mn.2, {"from pony import orm"})
  else if mn.1 = "pony.migrate.diagram_ops" then
    ("op." ++ mn.2, {"from pony.migrate import diagram_ops as op"})
  else
    (path, {"import " ++ mn.1})

/-- The joining step of `DeconstructableSerializer._format_args` (lines
87-98): positional argument strings in order, then keyword arguments as
`name=value` in sorted key order, comma-joined.  The source sorts the raw
`kwargs.items()` before rendering each value; rendering is a pure
per-item function that leaves the keys unchanged, so sorting the rendered
pairs by the same keys yields the same emitted order. -/
def format_args (argStrs : List String) (kwPairs : List (String × String)) : String :=
  String.intercalate ", " (argStrs ++ (sortByKey kwPairs).map (fun kv => kv.1 ++ "=" ++ kv.2))

/-- `DeconstructableSerializer.serialize_deconstructed` (lines 100-104),
given the already-rendered arguments. -/
def render_deconstructed (path : String) (argStrs : List String)
    (kwPairs : List (String × String)) (im1 im2 : Finset String) :
    String × Finset String :=
  let ni := serialize_path path
  (ni.1 ++ "(" ++ format_args argStrs kwPairs ++ ")", ni.2 ∪ (im1 ∪ im2))

/-- A Python value, tagged by the first `serializer_factory` dispatch rule
it satisfies.  Dictionary keys and keyword names are modelled as Python
strings: `sorted(...)` needs mutually comparable keys and the mappings
this tool serializes are string-keyed (a string key itself serializes,
through `serializer_factory`, to its repr).  `vIter` stands for a value
only matched by the final `collections.Iterable` test; `vOpaque` stands
for a value matched by no test at all. -/
inductive PValue where
  | vAttr (path : String) (args : List PValue) (kwargs : List (String × PValue))
  | vEntity (name : String)
  | vType (module : String) (name : String) (hasDeconstruct : Bool)
  | vDecon (path : String) (args : List PValue) (kwargs : List (String × PValue))
  | vFrozenset (elems : List PValue)
  | vList (elems : List PValue)
  | vSet (elems : List PValue)
  | vTuple (elems : List PValue)
  | vDict (entries : List (String × PValue))
  | vInt (n : Int)
  | vBool (b : Bool)
  | vNone
  | vStr (s : String)
  | vFunc (f : FuncVal)
  | vIter (elems : List PValue)
  | vOpaque

mutual

/-- `serializer_factory(value, ctx).serialize()` (serializer.py): dispatch
on the value category, then the chosen serializer class's `serialize`.
`vOpaque` reaches the final `raise ValueError` (line 406), which carries
no arguments — modelled as the empty message. -/
def serialize (ctx : Ctx) : PValue → Except String (String × Finset String)
  | .vAttr path args kwargs =>
    match serializeList ctx args with
    | .error e => .error e
    | .ok si =>
      match serializeEntries ctx kwargs with
      | .error e => .error e
      | .ok pi => .ok (render_deconstructed path si.1 pi.1 si.2 pi.2)
  | .vEntity name =>
    .ok (if ctx.has_db_var then "db." ++ name else pyStrRepr name, ∅)
  | .vType module name _ =>
    if module = "decimal" ∧ name = "Decimal" then
      .ok ("Decimal", {"from decimal import Decimal"})
    else if module = "builtins" then
      .ok (name, ∅)
    else
      .ok (module ++ "." ++ name, {"import " ++ module})
  | .vDecon path args kwargs =>
    match serializeList ctx args with
    | .error e => .error e
    | .ok si =>
      match serializeEntries ctx kwargs with
      | .error e => .error e
      | .ok pi => .ok (render_deconstructed path si.1 pi.1 si.2 pi.2)
  | .vFrozenset elems =>
    match serializeList emptyCtx elems with
    | .error e => .error e
    | .ok si => .ok ("frozenset([" ++ String.intercalate ", " si.1 ++ "])", si.2)
  | .vList elems =>
    match serializeList emptyCtx elems with
    | .error e => .error e
    | .ok si => .ok ("[" ++ String.intercalate ", " si.1 ++ "]", si.2)
  | .vSet elems =>
    match serializeList emptyCtx elems with
    | .error e => .error e
    | .ok si => .ok ("set([" ++ String.intercalate ", " si.1 ++ "])", si.2)
  | .vTuple elems =>
    match serializeList emptyCtx elems with
    | .error e => .error e
    | .ok si =>
      .ok (if elems.length ≠ 1 then "(" ++ String.intercalate ", " si.1 ++ ")"
           else "(" ++ String.intercalate ", " si.1 ++ ",)", si.2)
  | .vDict entries =>
    match serializeEntries emptyCtx entries with
    | .error e => .error e
    | .ok pi =>
      .ok ("\x7b" ++ String.intercalate ", "
             ((sortByKey pi.1).map (fun kv => pyStrRepr kv.1 ++ ": " ++ kv.2)) ++ "\x7d",
           pi.2)
  | .vInt n => .ok (toString n, ∅)
  | .vBool b => .ok (if b then "True" else "False", ∅)
  | .vNone => .ok ("None", ∅)
  | .vStr s =>
    .ok (if PY2 then String.mk (pyStrRepr s).data.tail else pyStrRepr s, ∅)
  | .vFunc f => serializeFunction f
  | .vIter elems =>
    match serializeList emptyCtx elems with
    | .error e => .error e
    | .ok si =>
      .ok (if si.1.length ≠ 1 then "(" ++ String.intercalate ", " si.1 ++ ")"
           else "(" ++ String.intercalate ", " si.1 ++ ",)", si.2)
  | .vOpaque => .error ""

/-- The per-item loop shared by `BaseSequenceSerializer.serialize`,
`IterableSerializer.serialize` and the positional-argument loop of
`_format_args`: rendered strings in order and the union of their import
sets. -/
def serializeList (ctx : Ctx) : List PValue → Except String (List String × Finset String)
  | [] => .ok ([], ∅)
  | x :: xs =>
    match serialize ctx x with
    | .error e => .error e
    | .ok si =>
      match serializeList ctx xs with
      | .error e => .error e
      | .ok ri => .ok (si.1 :: ri.1, si.2 ∪ ri.2)

/-- The per-item loop shared by `DictionarySerializer.serialize` and the
keyword-argument loop of `_format_args`: each value is rendered (the
source renders in sorted order; rendering is per-item and pure, so we
render in list order and sort the rendered pairs at the emission site),
keys are kept raw, and import sets are unioned. -/
def serializeEntries (ctx : Ctx) :
    List (String × PValue) → Except String (List (String × String) × Finset String)
  | [] => .ok ([], ∅)
  | x :: rest =>
    match serialize ctx x.2 with
    | .error e => .error e
    | .ok si =>
      match serializeEntries ctx rest with
      | .error e => .error e
      | .ok ri => .ok ((x.1, si.1) :: ri.1, si.2 ∪ ri.2)

end

/-!
## Embedding of `pony/migrate/command.py`

The collaborators that `command.py` imports from modules not present under
src/ (`MigrationLoader` and its graph, `Migration._generate_name`, the
interactive questioner, `writer.MIGRATION_TEMPLATE`) are modelled from the
spec as data supplied in a `World` value; operator answers, printed lines
and written files are threaded through a `St` state record.  Side effects
outside every claim (the `orm.sql_debug` toggle, the `PONY_DEBUG`
post-mortem hook, the process-wide exit stack) are not modelled.
-/

/-- Python exceptions distinguished by the command layer. -/
inductive PyExn where
  | mergeAborted
  | attributeError (msg : String)
  | typeError (msg : String)
  | notImplementedError
  | exception (msg : String)
deriving DecidableEq

/-- Modelled from the spec: `writer.MIGRATION_TEMPLATE` (pony.migrate.writer,
code of this repository not under src/) is a fixed textual template over the
fields below (§4.9, §6 of the spec: pure text substitution); we keep the
substituted fields structured instead of flattening them to text. -/
structure RenderedMigration where
  deps : List String
  version : String
  timestamp : String
  body : String
  imports : String
deriving DecidableEq

/-- Modelled from the spec: the collaborating components `command.py` calls
but whose code is not under src/ — the graph loader's `leaf_nodes()` and
`forwards_plan` answers (§4.7), the tracking-table contents (§6), and
`Migration._generate_name` (§4.6) — supplied as data. -/
structure World where
  leaves : List String
  plan : List String
  hasMigrationTable : Bool
  savedApplied : List String
  newName : String
  version : String
  timestamp : String

/-- Mutable observables of one command run: the operator's pending answers
to merge prompts, the lines printed, and the files written. -/
structure St where
  answers : List Bool
  printed : List String
  written : List (String × RenderedMigration)
deriving DecidableEq

/-- Modelled from the spec: `InteractiveMigrationQuestioner.ask_merge`
(pony.migrate.questioner, not under src/) asks the operator a yes/no
question (§4.8); modelled by consuming the next queued answer. -/
def ask_merge (st : St) : Bool × St :=
  (st.answers.headD false, { st with answers := st.answers.tail })

/-- Membership test on printed/saved name lists (Python `in`). -/
def memb (n : String) (l : List String) : Bool :=
  l.any (fun m => m = n)

/-- `merge` (command.py lines 184-210).  When `loader` is None the graph is
built and the leaves are read from it (modelled by `World.leaves`);
otherwise the caller's `leaves` are used.  With at most one leaf it prints
and returns; a declined prompt raises `MergeAborted`; otherwise
`cmd_exitstack.callback(db.disconnect)` is evaluated — an `AttributeError`
when `db` is None, which is exactly what happens on the call from
`show_migrations`, which passes `loader`/`leaves` but leaves `db` at its
None default — and then the rendered empty-body migration file is
written. -/
def merge (w : World) (db : Option Unit) (passedLeaves : Option (List String))
    (st : St) : Except (PyExn × St) St :=
  let leaves := passedLeaves.getD w.leaves
  if leaves.length ≤ 1 then
    .ok { st with printed := st.printed ++ ["Nothing to merge."] }
  else
    let ans := ask_merge st
    if ans.1 = false then
      .error (.mergeAborted, ans.2)
    else
      match db with
      | none => .error (.attributeError "NoneType object has no attribute disconnect", ans.2)
      | some _ =>
        .ok { ans.2 with written := ans.2.written ++
          [(w.newName ++ ".py",
            { deps := leaves, version := w.version, timestamp := w.timestamp,
              body := "operations = []", imports := "" })] }

/-- `show_migrations` (command.py lines 140-182).  The `db` parameter is a
required positional argument, modelled as `Option Unit`: `none` stands for
a call that omits it, which Python rejects with a `TypeError` while binding
arguments, before the body runs.  The recursive re-listing call
`show_migrations(fail_fast=True)` on line 160 omits `db`, so its site is
modelled by that immediate `TypeError`. -/
def show_migrations (w : World) (db : Option Unit) (fail_fast : Bool)
    (st : St) : Except (PyExn × St) St :=
  match db with
  | none =>
    .error (.typeError "show_migrations missing 1 required positional argument: db", st)
  | some _ =>
    if w.leaves.isEmpty then
      .ok { st with printed := st.printed ++ ["No migrations"] }
    else if 1 < w.leaves.length ∧ fail_fast = false then
      let ans := ask_merge st
      if ans.1 then
        match merge w none (some w.leaves) ans.2 with
        | .error e => .error e
        | .ok st2 =>
          .error (.typeError "show_migrations missing 1 required positional argument: db", st2)
      else
        .ok ans.2
    else
      if w.hasMigrationTable = false then
        .ok { st with printed :=
          st.printed ++ ["No Migration table. Please apply the initial migration."] }
      else
        let names := w.plan
        let saved := w.savedApplied.filter (fun n => memb n names)
        .ok { st with printed := st.printed
          ++ saved.map (fun n => "+ " ++ n)
          ++ (names.filter (fun n => memb n saved = false)).map (fun n => "  " ++ n) }

/-- Prefix test on character lists (the effect of the glob pattern
`name*`). -/
def begins : List Char → List Char → Bool
  | [], _ => true
  | _ :: _, [] => false
  | p :: ps, c :: cs => p == c && begins ps cs

/-- Suffix test (`p[-3:] == ".py"` in the source). -/
def strEnds (s suffix : String) : Bool :=
  begins suffix.data.reverse s.data.reverse

/-- `p[:-3]`: drop the final `n` characters. -/
def strDropRight (s : String) (n : Nat) : String :=
  String.mk (s.data.take (s.data.length - n))

/-- `find_migration` (command.py lines 127-138).  `glob('%s*')` returns the
directory entries whose base name starts with `name`; the directory is
modelled as the list of its entry base names in listing order (the leading
directory path that glob prepends is stripped again by `os.path.basename`;
consequently the joined "Multiple files found" message, which in the source
shows the globbed paths, here shows base names). -/
def find_migration (dirFiles : List String) (name : String) : Except String String :=
  let files := dirFiles.filter (fun f => begins name.data f.data)
  if 1 < files.length then
    .error ("Multiple files found: " ++ String.intercalate ", " files)
  else
    match files with
    | [] => .error ("No files for " ++ name)
    | f :: _ =>
      if strEnds f ".py" then .ok (strDropRight f 3)
      else .error "AssertionError"

/-- The docopt option dictionary consumed by `migrate` (command.py lines
81-125): the four subcommand flags, the long options, and the positional
tokens. -/
structure Opts where
  verbose : Bool := false
  fake : Bool := false
  empty : Bool := false
  custom : Bool := false
  dry : Bool := false
  makeCmd : Bool := false
  applyCmd : Bool := false
  sqlCmd : Bool := false
  listCmd : Bool := false
  nameArg : Option String := none
  startArg : Option String := none
  endArg : Option String := none

/-- The dispatch outcome of one `migrate` invocation: which entry point of
the migration model (not under src/) would be called, with which
arguments. -/
inductive MigrateAction where
  | makeAction (empty custom : Bool) (filename : Option String)
  | listAction
  | applyAction (isFake dryRun : Bool) (nameStart nameEnd : Option String)
  | sqlAction (nameExact : String)
deriving DecidableEq

/-- `migrate` (command.py lines 81-125).  The `for cmd in ('make', 'apply',
'sql', 'list')` loop with its `else: cmd = None` picks the first flagged
subcommand; when none is flagged the dispatch chain falls through to the
final `raise NotImplementedError` (line 125).  The `--verbose` SQL-tracing
toggle and the `PONY_DEBUG` hook are side effects outside every claim and
are not modelled.  In the apply arm a lone `<start>` token is used as the
end bound (the docopt issue 358 workaround). -/
def migrate (dirFiles : List String) (opts : Opts) : Except PyExn MigrateAction :=
  if opts.makeCmd then
    .ok (.makeAction opts.empty opts.custom opts.nameArg)
  else if opts.applyCmd then
    match opts.startArg, opts.endArg with
    | some s, none =>
      match find_migration dirFiles s with
      | .error m => .error (.exception m)
      | .ok n => .ok (.applyAction opts.fake opts.dry none (some n))
    | some s, some e2 =>
      match find_migration dirFiles s with
      | .error m => .error (.exception m)
      | .ok ns =>
        match find_migration dirFiles e2 with
        | .error m => .error (.exception m)
        | .ok ne => .ok (.applyAction opts.fake opts.dry (some ns) (some ne))
    | none, _ => .ok (.applyAction opts.fake opts.dry none none)
  else if opts.sqlCmd then
    match find_migration dirFiles (opts.nameArg.getD "") with
    | .error m => .error (.exception m)
    | .ok n => .ok (.sqlAction n)
  else if opts.listCmd then
    .ok .listAction
  else
    .error .notImplementedError

/-- Whitespace splitting of a character list (`args.split()` with no
separator: runs of whitespace separate tokens, empty tokens dropped). -/
def wsSplit : List Char → List Char → List String
  | [], acc => if acc.isEmpty then [] else [String.mk acc.reverse]
  | c :: cs, acc =>
    if c.isWhitespace then
      if acc.isEmpty then wsSplit cs []
      else String.mk acc.reverse :: wsSplit cs []
    else wsSplit cs (c :: acc)

def pySplit (s : String) : List String := wsSplit s.data []

/-- `use_argv` (command.py lines 62-67): a generator-based context manager
that saves `sys.argv`, installs `['cli'] + args.split()`, yields, and
assigns the saved value back.  `sys.argv` is modelled as explicit state:
`body` receives the installed argv and returns the argv as the block leaves
it together with the block's outcome.  There is no try/finally around the
yield, so when the block raises, the generator is never resumed past the
yield and the saved value is not restored — the error branch keeps
whatever argv the block left behind. -/
def use_argv {α : Type} (args : String)
    (body : List String → List String × Except PyExn α)
    (argv : List String) : List String × Except PyExn α :=
  let sys_argv := argv
  let r := body ("cli" :: pySplit args)
  match r.2 with
  | .ok a => (sys_argv, .ok a)
  | .error e => (r.1, .error e)

theorem serializeEntries_keys (ctx : Ctx) :
    ∀ (l : List (String × PValue)) (ps : List (String × String)) (im : Finset String),
      serializeEntries ctx l = .ok (ps, im) → ps.map Prod.fst = l.map Prod.fst := by
  intro l
  induction l with
  | nil =>
    intro ps im h
    simp only [serializeEntries] at h
    cases h
    rfl
  | cons x rest ih =>
    intro ps im h
    simp only [serializeEntries] at h
    cases hx : serialize ctx x.2 with
    | error e => rw [hx] at h; cases h
    | ok si =>
      rw [hx] at h
      cases hr : serializeEntries ctx rest with
      | error e => rw [hr] at h; cases h
      | ok ri =>
        rw [hr] at h
        cases h
        simpa using ih ri.1 ri.2 (by rw [hr])

theorem serializeEntries_perm (ctx : Ctx) {l₁ l₂ : List (String × PValue)} (h : l₁.Perm l₂) :
    ∀ ps im, serializeEntries ctx l₁ = .ok (ps, im) →
      ∃ qs, serializeEntries ctx l₂ = .ok (qs, im) ∧ ps.Perm qs := by
  induction h with
  | nil => intro ps im h0; exact ⟨ps, h0, List.Perm.refl ps⟩
  | @cons x t₁ t₂ hrest ih =>
    intro ps im h0
    simp only [serializeEntries] at h0 ⊢
    cases hx : serialize ctx x.2 with
    | error e => rw [hx] at h0; cases h0
    | ok si =>
      rw [hx] at h0
      cases hr : serializeEntries ctx t₁ with
      | error e => rw [hr] at h0; cases h0
      | ok ri =>
        rw [hr] at h0
        cases h0
        obtain ⟨qs, hqs, hperm⟩ := ih ri.1 ri.2 (by rw [hr])
        rw [hqs]
        exact ⟨(x.1, si.1) :: qs, rfl, hperm.cons _⟩
  | swap x y l =>
    intro ps im h0
    simp only [serializeEntries] at h0 ⊢
    cases hy : serialize ctx y.2 with
    | error e => rw [hy] at h0; cases h0
    | ok sy =>
      rw [hy] at h0
      cases hx : serialize ctx x.2 with
      | error e => rw [hx] at h0; cases h0
      | ok sx =>
        rw [hx] at h0
        cases hl : serializeEntries ctx l with
        | error e => rw [hl] at h0; cases h0
        | ok rl =>
          rw [hl] at h0
          cases h0
          refine ⟨(x.1, sx.1) :: (y.1, sy.1) :: rl.1, ?_, List.Perm.swap _ _ _⟩
          rw [Finset.union_left_comm]
  | trans h₁ h₂ ih₁ ih₂ =>
    intro ps im h0
    obtain ⟨qs, hqs, hp⟩ := ih₁ ps im h0
    obtain ⟨rs, hrs, hq⟩ := ih₂ qs im hqs
    exact ⟨rs, hrs, hp.trans hq⟩

theorem serialize_vDict_eq (ctx : Ctx) {entries : List (String × PValue)}
    {ps : List (String × String)} {im : Finset String}
    (h : serializeEntries emptyCtx entries = .ok (ps, im)) :
    serialize ctx (.vDict entries) =
      .ok ("\x7b" ++ String.intercalate ", "
        ((sortByKey ps).map (fun kv => pyStrRepr kv.1 ++ ": " ++ kv.2)) ++ "\x7d", im) := by
  simp only [serialize]
  rw [h]

theorem serialize_vDecon_eq (ctx : Ctx) {path : String} {args : List PValue}
    {kwargs : List (String × PValue)} {argStrs : List String} {aim : Finset String}
    {kps : List (String × String)} {kim : Finset String}
    (ha : serializeList ctx args = .ok (argStrs, aim))
    (hk : serializeEntries ctx kwargs = .ok (kps, kim)) :
    serialize ctx (.vDecon path args kwargs) =
      .ok ((serialize_path path).1 ++ "(" ++ format_args argStrs kps ++ ")",
           (serialize_path path).2 ∪ (aim ∪ kim)) := by
  simp only [serialize]
  rw [ha, hk]
  rfl

/-- C1: for every mapping value the brace-literal entries are emitted in
sorted key order, and for every deconstructable value the keyword
arguments are emitted in sorted key order; serialization is a pure
function, and two association lists presenting the same string-keyed
mapping (a permutation with duplicate-free keys) serialize identically. -/
theorem dict_and_kwargs_sorted_order
    (ctx : Ctx) (entries : List (String × PValue))
    (ps : List (String × String)) (im : Finset String)
    (h : serializeEntries emptyCtx entries = .ok (ps, im)) :
    (serialize ctx (.vDict entries) =
        .ok ("\x7b" ++ String.intercalate ", "
          ((sortByKey ps).map (fun kv => pyStrRepr kv.1 ++ ": " ++ kv.2)) ++ "\x7d", im))
    ∧ List.Sorted keyLe (sortByKey ps)
    ∧ (∀ entries₂, entries.Perm entries₂ → (entries.map Prod.fst).Nodup →
        serialize ctx (.vDict entries₂) = serialize ctx (.vDict entries))
    ∧ (∀ path args kwargs argStrs aim kps kim,
        serializeList ctx args = .ok (argStrs, aim) →
        serializeEntries ctx kwargs = .ok (kps, kim) →
        serialize ctx (.vDecon path args kwargs) =
          .ok ((serialize_path path).1 ++ "(" ++ format_args argStrs kps ++ ")",
               (serialize_path path).2 ∪ (aim ∪ kim))
          ∧ List.Sorted keyLe (sortByKey kps)) := by
  refine ⟨serialize_vDict_eq ctx h, sortByKey_sorted ps, ?_, ?_⟩
  · intro entries₂ hperm hnodup
    obtain ⟨qs, hqs, hpq⟩ := serializeEntries_perm emptyCtx hperm ps im h
    have hkeys : ps.map Prod.fst = entries.map Prod.fst :=
      serializeEntries_keys emptyCtx entries ps im h
    have hpsnodup : (ps.map Prod.fst).Nodup := by rw [hkeys]; exact hnodup
    have hsort : sortByKey ps = sortByKey qs := sortByKey_eq_of_perm hpq hpsnodup
    rw [serialize_vDict_eq ctx h, serialize_vDict_eq ctx hqs, hsort]
  · intro path args kwargs argStrs aim kps kim ha hk
    exact ⟨serialize_vDecon_eq ctx ha hk, sortByKey_sorted kps⟩

/-- C1 witness: the spec's own example mapping and a deconstructable value
with keyword arguments given in unsorted order. -/
theorem dict_and_kwargs_sorted_order_witness :
    serialize emptyCtx (.vDict [("b", .vInt 2), ("a", .vInt 1)]) =
      .ok ("\x7b\x27a\x27: 1, \x27b\x27: 2\x7d", ∅)
    ∧ serialize emptyCtx
        (.vDecon "pony.orm.core.Required" [.vStr "x"] [("b1", .vInt 2), ("a1", .vInt 1)]) =
      .ok ("orm.Required(\x27x\x27, a1=1, b1=2)", {"from pony import orm"}) := by
  constructor
  · exact (dict_and_kwargs_sorted_order emptyCtx
      [("b", .vInt 2), ("a", .vInt 1)] [("b", "2"), ("a", "1")] ∅ rfl).1
  · exact ((dict_and_kwargs_sorted_order emptyCtx [] [] ∅ rfl).2.2.2
      "pony.orm.core.Required" [.vStr "x"] [("b1", .vInt 2), ("a1", .vInt 1)]
      ["\x27x\x27"] ∅ [("b1", "2"), ("a1", "1")] ∅ rfl rfl).1

/-- C2 counterexample: an operation class — a value that is a `type` and
exposes a deconstruction method, and is none of attribute / entity class /
entity declaration — is dispatched to `TypeSerializer` (`isinstance(value,
type)` on line 360 precedes the `hasattr(value, 'deconstruct')` test on
line 363), so it renders as the dotted name with a plain module import:
not as a call expression, and without the `op.` aliasing the claim
requires for the deconstruction rule. -/
theorem type_with_deconstruct_not_call_expr :
    serialize emptyCtx (.vType "pony.migrate.diagram_ops" "AddEntity" true) =
        .ok ("pony.migrate.diagram_ops.AddEntity", {"import pony.migrate.diagram_ops"})
    ∧ '(' ∉ "pony.migrate.diagram_ops.AddEntity".data :=
  ⟨rfl, by decide⟩

/-- C2 amended: for every non-type value exposing a deconstruction method
(and not an attribute or entity class), serialization renders a call
expression whose callee name special-cases `pony.orm.core` (alias `orm.`)
and `pony.migrate.diagram_ops` (alias `op.`) and otherwise uses the full
dotted path with a module import; the plain type/class rule is applied
BEFORE the deconstruction rule, so a class renders identically whether or
not it exposes a deconstruction method. -/
theorem deconstructable_path_resolution (ctx : Ctx) :
    (∀ m n hd, serialize ctx (.vType m n hd) = serialize ctx (.vType m n false))
    ∧ (∀ path n, rsplitDot path = ("pony.orm.core", n) →
        serialize_path path = ("orm." ++ n, {"from pony import orm"}))
    ∧ (∀ path n, rsplitDot path = ("pony.migrate.diagram_ops", n) →
        serialize_path path = ("op." ++ n, {"from pony.migrate import diagram_ops as op"}))
    ∧ (∀ path m n, rsplitDot path = (m, n) → m ≠ "pony.orm.core" →
        m ≠ "pony.migrate.diagram_ops" →
        serialize_path path = (path, {"import " ++ m}))
    ∧ (∀ path args kwargs argStrs aim kps kim,
        serializeList ctx args = .ok (argStrs, aim) →
        serializeEntries ctx kwargs = .ok (kps, kim) →
        serialize ctx (.vDecon path args kwargs) =
          .ok ((serialize_path path).1 ++ "(" ++ format_args argStrs kps ++ ")",
               (serialize_path path).2 ∪ (aim ∪ kim))) := by
  refine ⟨fun m n hd => rfl, ?_, ?_, ?_, ?_⟩
  · intro path n hsplit
    simp [serialize_path, hsplit]
  · intro path n hsplit
    simp [serialize_path, hsplit]
  · intro path m n hsplit hm1 hm2
    simp [serialize_path, hsplit, hm1, hm2]
  · intro path args kwargs argStrs aim kps kim ha hk
    exact serialize_vDecon_eq ctx ha hk

/-- C2 witness for the amended claim: the three path-resolution cases and
a full call-expression rendering. -/
theorem deconstructable_path_resolution_witness :
    serialize_path "pony.orm.core.Required" = ("orm.Required", {"from pony import orm"})
    ∧ serialize_path "pony.migrate.diagram_ops.AddEntity" =
        ("op.AddEntity", {"from pony.migrate import diagram_ops as op"})
    ∧ serialize_path "myapp.helpers.Thing" = ("myapp.helpers.Thing", {"import myapp.helpers"})
    ∧ serialize emptyCtx (.vDecon "myapp.helpers.Thing" [] []) =
        .ok ("myapp.helpers.Thing()", {"import myapp.helpers"}) := by
  refine ⟨?_, ?_, ?_, ?_⟩
  · exact (deconstructable_path_resolution emptyCtx).2.1 "pony.orm.core.Required" "Required" rfl
  · exact (deconstructable_path_resolution emptyCtx).2.2.1
      "pony.migrate.diagram_ops.AddEntity" "AddEntity" rfl
  · exact (deconstructable_path_resolution emptyCtx).2.2.2.1
      "myapp.helpers.Thing" "myapp.helpers" "Thing" rfl (by decide) (by decide)
  · exact (deconstructable_path_resolution emptyCtx).2.2.2.2
      "myapp.helpers.Thing" [] [] [] ∅ [] ∅ rfl rfl

/-- C4: function-value serialization — a module-level named function
(qualname free of the `<locals>` marker) renders as its module-qualified
dotted reference with the module imported; an inline lambda renders its
decompiled body as `lambda: <expression>` with no imports; a function
nested in another function's body (qualname carries the marker) that is
not reachable as a top-level attribute of its module fails with the
unserializable-value `ValueError`. -/
theorem function_serialization_cases (f : FuncVal) (m : String) :
    (∀ ctx, serialize ctx (.vFunc f) = serializeFunction f)
    ∧ (f.selfClass = none → f.name ≠ "<lambda>" → f.module = some m → f.qualname ≠ "" →
        m ≠ "" → f.qualname.data.contains '<' = false →
        serializeFunction f = .ok (m ++ "." ++ f.qualname, {"import " ++ m}))
    ∧ (f.selfClass = none → f.name = "<lambda>" →
        serializeFunction f = .ok ("lambda: " ++ decompiledBody f, ∅))
    ∧ (f.selfClass = none → f.name ≠ "<lambda>" → f.module = some m →
        f.qualname.data.contains '<' = true → f.reachable = false →
        serializeFunction f =
          .error ("Could not find function " ++ f.name ++ " in " ++ m ++ ".\n" ++
            unboundMethodNote)) := by
  refine ⟨fun ctx => rfl, ?_, ?_, ?_⟩
  · intro hself hlam hmod hq hm hmark
    have hmark' : '<' ∉ f.qualname.data := by simpa using hmark
    simp [serializeFunction, hself, hlam, hmod, hq, hm, hmark']
  · intro hself hlam
    simp [serializeFunction, hself, hlam]
  · intro hself hlam hmod hmark hreach
    have hmark' : '<' ∈ f.qualname.data := by simpa using hmark
    simp [serializeFunction, hself, hlam, hmod, hmark', hreach]

/-- C4 witness: a module-level function, an inline lambda, and a locally
nested function. -/
theorem function_serialization_cases_witness :
    serializeFunction
        { name := "f", qualname := "f", module := some "mymod", selfClass := none,
          lambdaBody := "", reachable := true } = .ok ("mymod.f", {"import mymod"})
    ∧ serializeFunction
        { name := "<lambda>", qualname := "<lambda>", module := some "mymod",
          selfClass := none, lambdaBody := "x + 1", reachable := true } =
      .ok ("lambda: x + 1", ∅)
    ∧ serializeFunction
        { name := "inner", qualname := "outer.<locals>.inner", module := some "mymod",
          selfClass := none, lambdaBody := "", reachable := false } =
      .error ("Could not find function inner in mymod.\n" ++ unboundMethodNote) := by
  refine ⟨?_, ?_, ?_⟩
  · exact (function_serialization_cases
      { name := "f", qualname := "f", module := some "mymod", selfClass := none,
        lambdaBody := "", reachable := true } "mymod").2.1
      rfl (by decide) rfl (by decide) (by decide) (by decide)
  · exact (function_serialization_cases
      { name := "<lambda>", qualname := "<lambda>", module := some "mymod",
        selfClass := none, lambdaBody := "x + 1", reachable := true } "mymod").2.2.1
      rfl rfl
  · exact (function_serialization_cases
      { name := "inner", qualname := "outer.<locals>.inner", module := some "mymod",
        selfClass := none, lambdaBody := "", reachable := false } "mymod").2.2.2
      rfl (by decide) rfl (by decide) (by decide)

/-- C6 counterexample: the dispatch-fallthrough failure carries no context
at all — the source ends with a bare `raise ValueError` (line 406), so the
error for a value matching no rule has the empty message, naming neither
the value nor anything else. -/
theorem unmatched_value_error_empty :
    serialize emptyCtx .vOpaque = Except.error "" := rfl

/-- C6 amended: when no dispatch rule matches, serialization fails with a
`ValueError` carrying no message; identifying context (the function name)
accompanies only the unserializable-function error raised inside
`FunctionTypeSerializer.serialize`. -/
theorem unmatched_value_error_no_context :
    (∀ ctx, serialize ctx .vOpaque = Except.error "")
    ∧ (∀ (f : FuncVal) (m : String), f.selfClass = none → f.name ≠ "<lambda>" →
        f.module = some m → f.qualname.data.contains '<' = true → f.reachable = false →
        serializeFunction f =
          .error ("Could not find function " ++ f.name ++ " in " ++ m ++ ".\n" ++
            unboundMethodNote)) := by
  refine ⟨fun ctx => rfl, ?_⟩
  intro f m hself hlam hmod hmark hreach
  have hmark' : '<' ∈ f.qualname.data := by simpa using hmark
  simp [serializeFunction, hself, hlam, hmod, hmark', hreach]

/-- C6 witness: the bare fallthrough error and a context-bearing function
error. -/
theorem unmatched_value_error_no_context_witness :
    serialize emptyCtx .vOpaque = Except.error ""
    ∧ serializeFunction
        { name := "helper", qualname := "setup.<locals>.helper", module := some "pkg.mod",
          selfClass := none, lambdaBody := "", reachable := false } =
      .error ("Could not find function helper in pkg.mod.\n" ++ unboundMethodNote) := by
  refine ⟨unmatched_value_error_no_context.1 emptyCtx, ?_⟩
  exact unmatched_value_error_no_context.2
    { name := "helper", qualname := "setup.<locals>.helper", module := some "pkg.mod",
      selfClass := none, lambdaBody := "", reachable := false } "pkg.mod"
    rfl (by decide) rfl (by decide) (by decide)

theorem intercalate_singleton (sep s : String) : String.intercalate sep [s] = s := rfl

/-- C8: tuple-like (`TupleSerializer`) and generic-iterable
(`IterableSerializer`) values render the empty case as `()`, the
single-element case with the explicit trailing separator `(x,)`, and the
multi-element case as a plain parenthesized comma-joined literal.
`TupleSerializer._format` tests `len(self.value)` while
`IterableSerializer` tests `len(strings)`; both loops render one string
per element so the tests agree. -/
theorem tuple_iterable_rendering (ctx : Ctx) (x : PValue) (xs : List PValue)
    (s : String) (im : Finset String) (ss : List String) (ims : Finset String) :
    (serialize ctx (.vTuple []) = .ok ("()", ∅))
    ∧ (serialize ctx (.vIter []) = .ok ("()", ∅))
    ∧ (serialize emptyCtx x = .ok (s, im) →
        serialize ctx (.vTuple [x]) = .ok ("(" ++ s ++ ",)", im))
    ∧ (serialize emptyCtx x = .ok (s, im) →
        serialize ctx (.vIter [x]) = .ok ("(" ++ s ++ ",)", im))
    ∧ (serializeList emptyCtx xs = .ok (ss, ims) → xs.length ≠ 1 →
        serialize ctx (.vTuple xs) = .ok ("(" ++ String.intercalate ", " ss ++ ")", ims))
    ∧ (serializeList emptyCtx xs = .ok (ss, ims) → ss.length ≠ 1 →
        serialize ctx (.vIter xs) = .ok ("(" ++ String.intercalate ", " ss ++ ")", ims)) := by
  refine ⟨rfl, rfl, ?_, ?_, ?_, ?_⟩
  · intro hx
    have hl : serializeList emptyCtx [x] = .ok ([s], im ∪ ∅) := by
      simp only [serializeList]
      rw [hx]
    simp only [serialize]
    rw [hl]
    simp [intercalate_singleton]
  · intro hx
    have hl : serializeList emptyCtx [x] = .ok ([s], im ∪ ∅) := by
      simp only [serializeList]
      rw [hx]
    simp only [serialize]
    rw [hl]
    simp [intercalate_singleton]
  · intro hxs hlen
    simp only [serialize]
    rw [hxs]
    simp [hlen]
  · intro hxs hlen
    simp only [serialize]
    rw [hxs]
    simp [hlen]

/-- C8 witness: the spec's `()` and `(5,)` examples plus a two-element
tuple and a generic iterable. -/
theorem tuple_iterable_rendering_witness :
    serialize emptyCtx (.vTuple []) = .ok ("()", ∅)
    ∧ serialize emptyCtx (.vTuple [.vInt 5]) = .ok ("(5,)", ∅)
    ∧ serialize emptyCtx (.vTuple [.vInt 1, .vInt 2]) = .ok ("(1, 2)", ∅)
    ∧ serialize emptyCtx (.vIter [.vInt 5]) = .ok ("(5,)", ∅) := by
  refine ⟨?_, ?_, ?_, ?_⟩
  · exact (tuple_iterable_rendering emptyCtx .vNone [] "" ∅ [] ∅).1
  · exact (tuple_iterable_rendering emptyCtx (.vInt 5) [] "5" ∅ [] ∅).2.2.1 rfl
  · exact (tuple_iterable_rendering emptyCtx .vNone [.vInt 1, .vInt 2]
      "" ∅ ["1", "2"] ∅).2.2.2.2.1 rfl (by decide)
  · exact (tuple_iterable_rendering emptyCtx (.vInt 5) [] "5" ∅ [] ∅).2.2.2.1 rfl

/-- C5: `find_migration` prefix-resolution — more than one match fails
with an error naming every match, no match fails with the no-candidates
error, and a single `.py` match returns its base name with the extension
removed. -/
theorem find_migration_resolution (dirFiles : List String) (name : String) :
    (1 < (dirFiles.filter (fun f => begins name.data f.data)).length →
      find_migration dirFiles name =
        .error ("Multiple files found: " ++
          String.intercalate ", " (dirFiles.filter (fun f => begins name.data f.data))))
    ∧ ((dirFiles.filter (fun f => begins name.data f.data)) = [] →
      find_migration dirFiles name = .error ("No files for " ++ name))
    ∧ (∀ f, (dirFiles.filter (fun f => begins name.data f.data)) = [f] →
        strEnds f ".py" = true →
        find_migration dirFiles name = .ok (strDropRight f 3)) := by
  refine ⟨?_, ?_, ?_⟩
  · intro hlen
    simp only [find_migration]
    rw [if_pos hlen]
  · intro hnone
    simp only [find_migration]
    rw [hnone]
    simp
  · intro f hone hpy
    simp only [find_migration]
    rw [hone]
    simp [hpy]

/-- C5 witness: the spec's §8.7 example — `0001_init.py` and
`0001_init_extra.py` in the directory; the prefix `0001` is ambiguous,
`9999` matches nothing, and an unambiguous prefix resolves to the base
name without `.py`. -/
theorem find_migration_resolution_witness :
    find_migration ["0001_init.py", "0001_init_extra.py"] "0001" =
      .error ("Multiple files found: 0001_init.py, 0001_init_extra.py")
    ∧ find_migration ["0001_init.py", "0001_init_extra.py"] "9999" =
      .error ("No files for 9999")
    ∧ find_migration ["0001_init.py", "0001_init_extra.py"] "0001_init." =
      .ok "0001_init" := by
  refine ⟨?_, ?_, ?_⟩
  · exact (find_migration_resolution ["0001_init.py", "0001_init_extra.py"] "0001").1
      (by decide)
  · exact (find_migration_resolution ["0001_init.py", "0001_init_extra.py"] "9999").2.1
      (by decide)
  · exact (find_migration_resolution ["0001_init.py", "0001_init_extra.py"] "0001_init.").2.2
      "0001_init.py" (by decide) (by decide)

/-- C7: the standalone `merge` entry point (invoked with a database handle
and no pre-built loader) — at most one leaf prints "Nothing to merge." and
returns without error or file write; a declined prompt raises the
distinguished `MergeAborted`; an accepted prompt writes one new migration
file whose dependencies are exactly the current leaves and whose body is
the literal empty operation list. -/
def mergedFile (w : World) : String × RenderedMigration :=
  (w.newName ++ ".py",
   { deps := w.leaves, version := w.version, timestamp := w.timestamp,
     body := "operations = []", imports := "" })

theorem merge_entry_point (w : World) (st : St) :
    (w.leaves.length ≤ 1 →
      merge w (some ()) none st = .ok { st with printed := st.printed ++ ["Nothing to merge."] })
    ∧ (1 < w.leaves.length → st.answers.headD false = false →
      merge w (some ()) none st = .error (.mergeAborted, { st with answers := st.answers.tail }))
    ∧ (1 < w.leaves.length → st.answers.headD false = true →
      merge w (some ()) none st =
        .ok { st with answers := st.answers.tail, written := st.written ++ [mergedFile w] }) := by
  refine ⟨?_, ?_, ?_⟩
  · intro h
    simp [merge, h]
  · intro h hans
    have hn : ¬ w.leaves.length ≤ 1 := by omega
    have hans' : st.answers.head?.getD false = false := by simpa using hans
    simp [merge, hn, ask_merge, hans']
  · intro h hans
    have hn : ¬ w.leaves.length ≤ 1 := by omega
    have hans' : st.answers.head?.getD false = true := by simpa using hans
    simp [merge, hn, ask_merge, hans', mergedFile]

/-- C7 witness: one leaf, then two leaves declined, then two leaves
accepted. -/
theorem merge_entry_point_witness :
    merge
        { leaves := ["0001_a"], plan := [], hasMigrationTable := true, savedApplied := [],
          newName := "0002_m", version := "0.7", timestamp := "2018-01-01 00:00" }
        (some ()) none { answers := [], printed := [], written := [] } =
      .ok { answers := [], printed := ["Nothing to merge."], written := [] }
    ∧ merge
        { leaves := ["0001_a", "0002_b"], plan := [], hasMigrationTable := true,
          savedApplied := [], newName := "0003_m", version := "0.7",
          timestamp := "2018-01-01 00:00" }
        (some ()) none { answers := [false], printed := [], written := [] } =
      .error (.mergeAborted, { answers := [], printed := [], written := [] })
    ∧ merge
        { leaves := ["0001_a", "0002_b"], plan := [], hasMigrationTable := true,
          savedApplied := [], newName := "0003_m", version := "0.7",
          timestamp := "2018-01-01 00:00" }
        (some ()) none { answers := [true], printed := [], written := [] } =
      .ok { answers := [], printed := [], written := [("0003_m.py",
        { deps := ["0001_a", "0002_b"], version := "0.7",
          timestamp := "2018-01-01 00:00", body := "operations = []", imports := "" })] } := by
  refine ⟨?_, ?_, ?_⟩
  · exact (merge_entry_point
      { leaves := ["0001_a"], plan := [], hasMigrationTable := true, savedApplied := [],
        newName := "0002_m", version := "0.7", timestamp := "2018-01-01 00:00" }
      { answers := [], printed := [], written := [] }).1 (by decide)
  · exact (merge_entry_point
      { leaves := ["0001_a", "0002_b"], plan := [], hasMigrationTable := true,
        savedApplied := [], newName := "0003_m", version := "0.7",
        timestamp := "2018-01-01 00:00" }
      { answers := [false], printed := [], written := [] }).2.1 (by decide) rfl
  · exact (merge_entry_point
      { leaves := ["0001_a", "0002_b"], plan := [], hasMigrationTable := true,
        savedApplied := [], newName := "0003_m", version := "0.7",
        timestamp := "2018-01-01 00:00" }
      { answers := [true], printed := [], written := [] }).2.2 (by decide) rfl

/-- C3 (code bug): during `list`, with two leaves and an operator who
agrees to merge, the code calls `merge(loader=loader, leaves=leaves)`
leaving `db` at its None default, so after `merge` re-prompts (a second
prompt the claim does not describe) it evaluates `db.disconnect` on None
and raises `AttributeError` — no merge migration is written and the
fail-fast re-listing (itself calling `show_migrations(fail_fast=True)`
without the required `db` argument) is never reached.  Declining at the
first prompt does return silently with nothing printed and nothing
written, as the claim says. -/
theorem show_migrations_merge_crash :
    (show_migrations
        { leaves := ["0001_a", "0002_b"], plan := ["0001_a", "0002_b"],
          hasMigrationTable := true, savedApplied := [], newName := "0003_merge",
          version := "0.7", timestamp := "2018-01-01 00:00" }
        (some ()) false { answers := [true, true], printed := [], written := [] } =
      .error (.attributeError "NoneType object has no attribute disconnect",
        { answers := [], printed := [], written := [] }))
    ∧ (show_migrations
        { leaves := ["0001_a", "0002_b"], plan := ["0001_a", "0002_b"],
          hasMigrationTable := true, savedApplied := [], newName := "0003_merge",
          version := "0.7", timestamp := "2018-01-01 00:00" }
        (some ()) false { answers := [false], printed := [], written := [] } =
      .ok { answers := [], printed := [], written := [] }) :=
  ⟨rfl, rfl⟩

/-- C9: dispatching with none of the four subcommand flags set — as in the
documented bare invocation carrying only `--verbose`/`--fake` — falls
through every arm of `migrate` to `raise NotImplementedError`, performing
no migration action. -/
theorem migrate_no_subcommand (dirFiles : List String) (opts : Opts)
    (h1 : opts.makeCmd = false) (h2 : opts.applyCmd = false)
    (h3 : opts.sqlCmd = false) (h4 : opts.listCmd = false) :
    migrate dirFiles opts = .error .notImplementedError := by
  simp [migrate, h1, h2, h3, h4]

/-- C9 witness: the bare invocation form with only the top-level flags. -/
theorem migrate_no_subcommand_witness :
    migrate [] { verbose := true, fake := true } = .error .notImplementedError :=
  migrate_no_subcommand [] { verbose := true, fake := true } rfl rfl rfl rfl

/-- C10: `use_argv` installs `['cli'] + args.split()` as the argv the
managed block sees; on normal exit it restores the saved original argv
(whatever the block did to argv meanwhile), and on a raising exit — there
being no try/finally around the yield — it leaves argv as the block left
it, without restoring. -/
theorem use_argv_replace_restore {α : Type} (args : String) (argv : List String)
    (body : List String → List String × Except PyExn α) :
    (∀ a argvAfter, body ("cli" :: pySplit args) = (argvAfter, .ok a) →
      use_argv args body argv = (argv, .ok a))
    ∧ (∀ e argvAfter, body ("cli" :: pySplit args) = (argvAfter, .error e) →
      use_argv args body argv = (argvAfter, .error e)) := by
  constructor
  · intro a argvAfter h
    simp [use_argv, h]
  · intro e argvAfter h
    simp [use_argv, h]

/-- C10 witness: a normally-exiting block sees the installed argv and the
original argv is restored afterwards; a raising block that clobbered argv
leaves its clobbered value behind (which differs from the original). -/
theorem use_argv_replace_restore_witness :
    use_argv "apply --fake" (fun l => (l, Except.ok l.length)) ["orig"] =
      (["orig"], Except.ok 3)
    ∧ use_argv "apply --fake"
        (fun _ => (["clobbered"], (Except.error (PyExn.exception "boom") : Except PyExn Nat)))
        ["orig"] =
      (["clobbered"], Except.error (PyExn.exception "boom"))
    ∧ (["clobbered"] : List String) ≠ ["orig"] := by
  refine ⟨?_, ?_, by decide⟩
  · exact (use_argv_replace_restore "apply --fake" ["orig"]
      (fun l => (l, Except.ok l.length))).1 3 ("cli" :: pySplit "apply --fake") rfl
  · exact (use_argv_replace_restore "apply --fake" ["orig"]
      (fun _ => (["clobbered"], (Except.error (PyExn.exception "boom") : Except PyExn Nat)))).2
      (PyExn.exception "boom") ["clobbered"] rfl
